import Mathlib

/-!
Verification development for the accident-records analysis script
(statistics_and_trends.py).

The script is a pandas/scipy pipeline.  We shallowly embed the parts the
claims are about:

* a table is a list of rows; a row holds the cells of the columns the
  script touches.  A cell of the date column is either raw text (as loaded
  from the CSV), a parsed calendar date, or the missing marker NaT.  A cell
  of a numeric column is raw text, a rational number, or NaN.  Missing
  strings are modelled as none.
* preprocessing: the in-place column coercions (to_datetime / to_numeric
  with coercion of errors to the missing marker), the dropna over the three
  critical columns, and the severity dictionary map.  The source function
  mutates the caller's frame when it assigns the three coerced columns, then
  dropna produces a fresh frame and Severity_Num is added to that copy only.
  We model this with an explicit state pair: preprocessing returns
  (state of the caller's table object after the call, returned cleaned table).
* statistical_analysis: pandas mean/std (skipna, std with divisor n-1) and
  scipy skew/kurtosis (missing values propagate; zero variance gives the
  indeterminate NaN result; kurtosis is the excess/Fisher form).  A NaN-able
  float result is an Option; exact values are rationals, except where a
  square root forces the reals.
* writing: the classification of skewness and kurtosis into the printed
  qualitative labels.  Comparisons against NaN are false in the source, so
  the missing case of each classifier lands in the final else branch.
-/

/-- A calendar date as produced by parsing with format %d-%m-%Y. -/
structure Date where
  year : Nat
  month : Nat
  day : Nat
deriving DecidableEq, Repr

/-- The Gregorian leap-year rule. -/
def isLeap (y : Nat) : Bool :=
  (y % 4 == 0 && y % 100 != 0) || y % 400 == 0

/-- Number of days of month m of year y. -/
def daysInMonth (y m : Nat) : Nat :=
  if m == 2 then (if isLeap y then 29 else 28)
  else if m == 4 || m == 6 || m == 9 || m == 11 then 30
  else 31

/-- Split a character list at every occurrence of the separator (the split
the date and decimal parsers use; kept structural so it evaluates). -/
def splitOnChar (sep : Char) : List Char → List (List Char)
  | [] => [[]]
  | c :: cs =>
      match splitOnChar sep cs with
      | [] => if c = sep then [[], []] else [[c]]
      | y :: ys => if c = sep then [] :: y :: ys else (c :: y) :: ys

/-- The value of a digit string. -/
def digitsToNat (cs : List Char) : Nat :=
  cs.foldl (fun n c => 10 * n + (c.toNat - 48)) 0

/-- A non-empty all-digit group of characters, as a number. -/
def digits? (cs : List Char) : Option Nat :=
  if cs.isEmpty then none
  else if cs.all Char.isDigit then some (digitsToNat cs) else none

/-- Parse a string of the shape DD-MM-YYYY into a calendar date, as
pd.to_datetime with format %d-%m-%Y does for a single text cell: day and
month are one or two digits, the year is four digits, and the triple must be
a real calendar date; anything else fails (and will be coerced to NaT). -/
def parseDate (s : String) : Option Date :=
  match splitOnChar ('-') s.toList with
  | [ds, ms, ys] =>
    if ds.length == 0 || 2 < ds.length || ms.length == 0 || 2 < ms.length
        || ys.length != 4 then none
    else
      match digits? ds, digits? ms, digits? ys with
      | some d, some m, some y =>
          if 1 ≤ m && m ≤ 12 && 1 ≤ d && d ≤ daysInMonth y m then
            some ⟨y, m, d⟩
          else none
      | _, _, _ => none
  | _ => none

/-- Strip surrounding whitespace. -/
def trimChars (cs : List Char) : List Char :=
  ((cs.dropWhile Char.isWhitespace).reverse.dropWhile Char.isWhitespace).reverse

/-- Parse a decimal numeral (optional sign, optional fractional part) into a
rational, as pd.to_numeric does for a single text cell; anything else fails
(and will be coerced to NaN). -/
def parseDecimal (s : String) : Option ℚ :=
  let t := trimChars s.toList
  let sign : ℚ := if t.head? = some ('-') then -1 else 1
  let u := if t.head? = some ('-') || t.head? = some ('+') then t.drop 1 else t
  match splitOnChar ('.') u with
  | [w] =>
      match digits? w with
      | some n => some (sign * (n : ℚ))
      | none => none
  | [w, f] =>
      if w.isEmpty && f.isEmpty then none
      else
        match (if w.isEmpty then some 0 else digits? w),
              (if f.isEmpty then some 0 else digits? f) with
        | some a, some b =>
            some (sign * ((a : ℚ) + (b : ℚ) / (10 : ℚ) ^ f.length))
        | _, _ => none
  | _ => none

/-- A cell of the Accident Date column: raw text, a parsed date, or NaT. -/
inductive DateCell where
  | str (s : String)
  | date (d : Date)
  | nat
deriving DecidableEq, Repr

/-- A cell of a numeric column: raw text, a number, or NaN. -/
inductive NumCell where
  | str (s : String)
  | num (q : ℚ)
  | nan
deriving DecidableEq, Repr

/-- True exactly for a parsed, non-missing date cell. -/
def DateCell.isDate : DateCell → Bool
  | .date _ => true
  | _ => false

/-- True exactly for a numeric, non-missing cell. -/
def NumCell.isNum : NumCell → Bool
  | .num _ => true
  | _ => false

/-- One row of the table: the columns the script reads or writes.  The
severityNum field stands for the Severity_Num column; in a table as loaded it
is simply absent, which we model as none everywhere. -/
structure Row where
  accidentDate : DateCell
  accidentSeverity : Option String
  numberOfCasualties : NumCell
  numberOfVehicles : NumCell
  lightConditions : Option String
  severityNum : Option ℚ
deriving DecidableEq, Repr

/-- pd.to_datetime with format %d-%m-%Y and coercion of errors, on one cell:
text is parsed (NaT on failure), an already parsed date and NaT pass
through. -/
def coerceDate : DateCell → DateCell
  | .str s =>
      match parseDate s with
      | some d => .date d
      | none => .nat
  | .date d => .date d
  | .nat => .nat

/-- pd.to_numeric with coercion of errors, on one cell: text is parsed (NaN
on failure), a number and NaN pass through. -/
def coerceNum : NumCell → NumCell
  | .str s =>
      match parseDecimal s with
      | some q => .num q
      | none => .nan
  | .num q => .num q
  | .nan => .nan

/-- The three in-place column assignments of preprocessing, on one row:
Accident Date, Number_of_Casualties and Number_of_Vehicles are coerced; every
other column is untouched. -/
def coerceRow (r : Row) : Row :=
  { r with
    accidentDate := coerceDate r.accidentDate
    numberOfCasualties := coerceNum r.numberOfCasualties
    numberOfVehicles := coerceNum r.numberOfVehicles }

/-- The dropna predicate over the three critical columns: the row survives
exactly when none of them is missing after coercion. -/
def rowComplete (r : Row) : Bool :=
  r.accidentDate.isDate && r.numberOfCasualties.isNum && r.numberOfVehicles.isNum

/-- The severity dictionary of the source: Slight to 1, Serious to 2, Fatal
to 3; any other label (a missing one included) maps to the missing value,
exactly as Series.map with a dict does. -/
def severityMap (o : Option String) : Option ℚ :=
  match o with
  | some s =>
      if s = ("Slight") then some 1
      else if s = ("Serious") then some 2
      else if s = ("Fatal") then some 3
      else none
  | none => none

/-- The Severity_Num assignment of preprocessing, on one row of the cleaned
frame. -/
def setSeverity (r : Row) : Row :=
  { r with severityNum := severityMap r.accidentSeverity }

/-- The preprocessing function.  First component: the state of the caller's
table object after the call (the three columns were assigned in place; dropna
and the Severity_Num assignment happened on a fresh copy, so the caller's
rows are all still there and carry no severity code).  Second component: the
cleaned table the function returns. -/
def preprocessing (t : List Row) : List Row × List Row :=
  let coerced := t.map coerceRow
  (coerced, (coerced.filter rowComplete).map setSeverity)

/-- The cleaned table preprocessing returns. -/
def preprocessingResult (t : List Row) : List Row :=
  (preprocessing t).2

/-!
Statistical analysis.  A column handed to statistical_analysis is a list of
float cells; a cell is either a number (a rational in the embedding) or NaN
(none).  The four moments of the source are pandas Series.mean and
Series.std (both skip missing values; std divides by n - 1) and
scipy.stats.skew / scipy.stats.kurtosis (missing values propagate to a NaN
result; a zero second central moment makes the standardized ratio
indeterminate, a NaN result again; kurtosis subtracts 3, the Fisher
convention of the scipy default).
-/

/-- The non-missing values of a column, in order. -/
def values (col : List (Option ℚ)) : List ℚ :=
  col.reduceOption

/-- Whether the column holds at least one missing value. -/
def hasMissing (col : List (Option ℚ)) : Bool :=
  col.any Option.isNone

/-- Mean of a bare list of numbers (division by zero yields the junk value 0,
reached only behind emptiness guards). -/
def listMean (l : List ℚ) : ℚ :=
  l.sum / (l.length : ℚ)

/-- k-th central moment with the population divisor n, the moment scipy's
skew and kurtosis are built from. -/
def centralMoment (l : List ℚ) (k : Nat) : ℚ :=
  ((l.map (fun x => (x - listMean l) ^ k)).sum) / (l.length : ℚ)

/-- The variance with the divisor n - 1 that pandas Series.std takes the
square root of. -/
def besselVariance (l : List ℚ) : ℚ :=
  ((l.map (fun x => (x - listMean l) ^ 2)).sum) / ((l.length : ℚ) - 1)

/-- pandas Series.mean: the mean of the non-missing values, NaN when there
are none. -/
def series_mean (col : List (Option ℚ)) : Option ℚ :=
  if (values col).isEmpty then none else some (listMean (values col))

/-- pandas Series.std (default ddof 1): the square root of the Bessel
variance of the non-missing values, NaN when fewer than two remain. -/
noncomputable def series_std (col : List (Option ℚ)) : Option ℝ :=
  if (values col).length < 2 then none
  else some (Real.sqrt ((besselVariance (values col) : ℚ) : ℝ))

/-- scipy.stats.skew with its defaults: a missing value or an empty column
propagates to NaN; a zero second moment makes the ratio indeterminate (NaN);
otherwise the third standardized moment m3 / m2^(3/2). -/
noncomputable def scipy_skew (col : List (Option ℚ)) : Option ℝ :=
  if hasMissing col then none
  else if col.isEmpty then none
  else if centralMoment (values col) 2 = 0 then none
  else some (((centralMoment (values col) 3 : ℚ) : ℝ) /
    Real.sqrt (((centralMoment (values col) 2 : ℚ) : ℝ) ^ 3))

/-- scipy.stats.kurtosis with its defaults (Fisher definition): a missing
value or an empty column propagates to NaN; a zero second moment is
indeterminate (NaN); otherwise m4 / m2^2 - 3. -/
def scipy_kurtosis (col : List (Option ℚ)) : Option ℚ :=
  if hasMissing col then none
  else if col.isEmpty then none
  else if centralMoment (values col) 2 = 0 then none
  else some (centralMoment (values col) 4 / (centralMoment (values col) 2) ^ 2 - 3)

/-- The statistical_analysis function of the source on one column: the
quadruple (mean, stddev, skew, excess kurtosis).  The source raises nothing:
every branch returns a quadruple, with NaN (none) components where the
underlying library yields NaN. -/
noncomputable def statistical_analysis (col : List (Option ℚ)) :
    Option ℚ × Option ℝ × Option ℝ × Option ℚ :=
  (series_mean col, series_std col, scipy_skew col, scipy_kurtosis col)

/-!
Interpretation (the writing function).  Only the qualitative classification
is modelled: the function prints the classification sentence built from a
skew label and a kurtosis label.  In the source the comparisons are float
comparisons, and every comparison against NaN is false, so a NaN moment falls
through to the final else branch of its classifier.
-/

/-- The skew branch of writing: strictly above 0.5 is right skewed, strictly
below -0.5 is left skewed, everything else (both boundaries and NaN
included) is approximately symmetric. -/
noncomputable def skewClass (s : Option ℝ) : String :=
  match s with
  | some x =>
      if x > 1 / 2 then ("right skewed")
      else if x < -(1 / 2) then ("left skewed")
      else ("approximately symmetric")
  | none => ("approximately symmetric")

/-- The kurtosis branch of writing: strictly positive is leptokurtic,
strictly negative is platykurtic, everything else (zero and NaN) is
mesokurtic. -/
def kurtClass (k : Option ℚ) : String :=
  match k with
  | some x =>
      if x > 0 then ("leptokurtic")
      else if x < 0 then ("platykurtic")
      else ("mesokurtic")
  | none => ("mesokurtic")

/-- The writing function's observable classification: the pair of labels it
prints for a moments quadruple. -/
noncomputable def writing (moments : Option ℚ × Option ℝ × Option ℝ × Option ℚ) :
    String × String :=
  (skewClass moments.2.2.1, kurtClass moments.2.2.2)

/-!
Spec-side definitions.  For the refinement claims about the moments these
follow the specification's words, to be compared with the definitions
embedded from the source: the arithmetic mean, the Bessel-corrected sample
standard deviation, and the excess kurtosis as fourth standardized moment
minus 3.
-/

/-- Spec wording: the arithmetic mean of the column's values. -/
def arithmeticMean (l : List ℚ) : ℚ :=
  l.sum / (l.length : ℚ)

/-- Spec wording: the sample variance with Bessel's correction, divisor
n - 1. -/
def sampleVarianceBessel (l : List ℚ) : ℚ :=
  ((l.map (fun x => (x - arithmeticMean l) ^ 2)).sum) / ((l.length : ℚ) - 1)

/-- Spec wording: the sample standard deviation with Bessel's correction. -/
noncomputable def sampleStdBessel (l : List ℚ) : ℝ :=
  Real.sqrt ((sampleVarianceBessel l : ℚ) : ℝ)

/-- Spec wording: the k-th population central moment. -/
def popMoment (l : List ℚ) (k : Nat) : ℚ :=
  ((l.map (fun x => (x - arithmeticMean l) ^ k)).sum) / (l.length : ℚ)

/-- Spec wording: excess kurtosis, the fourth standardized moment minus 3
(so a normal distribution scores 0). -/
def specExcessKurtosis (l : List ℚ) : ℚ :=
  popMoment l 4 / (popMoment l 2) ^ 2 - 3

/-!
Helper lemmas about the preprocessing embedding.
-/

@[simp] theorem coerceRow_accidentDate (r : Row) :
    (coerceRow r).accidentDate = coerceDate r.accidentDate := rfl

@[simp] theorem coerceRow_accidentSeverity (r : Row) :
    (coerceRow r).accidentSeverity = r.accidentSeverity := rfl

@[simp] theorem coerceRow_numberOfCasualties (r : Row) :
    (coerceRow r).numberOfCasualties = coerceNum r.numberOfCasualties := rfl

@[simp] theorem coerceRow_numberOfVehicles (r : Row) :
    (coerceRow r).numberOfVehicles = coerceNum r.numberOfVehicles := rfl

@[simp] theorem coerceRow_lightConditions (r : Row) :
    (coerceRow r).lightConditions = r.lightConditions := rfl

@[simp] theorem coerceRow_severityNum (r : Row) :
    (coerceRow r).severityNum = r.severityNum := rfl

@[simp] theorem setSeverity_accidentDate (r : Row) :
    (setSeverity r).accidentDate = r.accidentDate := rfl

@[simp] theorem setSeverity_accidentSeverity (r : Row) :
    (setSeverity r).accidentSeverity = r.accidentSeverity := rfl

@[simp] theorem setSeverity_numberOfCasualties (r : Row) :
    (setSeverity r).numberOfCasualties = r.numberOfCasualties := rfl

@[simp] theorem setSeverity_numberOfVehicles (r : Row) :
    (setSeverity r).numberOfVehicles = r.numberOfVehicles := rfl

@[simp] theorem setSeverity_lightConditions (r : Row) :
    (setSeverity r).lightConditions = r.lightConditions := rfl

@[simp] theorem setSeverity_severityNum (r : Row) :
    (setSeverity r).severityNum = severityMap r.accidentSeverity := rfl

theorem coerceDate_idem (c : DateCell) : coerceDate (coerceDate c) = coerceDate c := by
  cases c with
  | str s => cases h : parseDate s <;> simp [coerceDate, h]
  | date d => rfl
  | nat => rfl

theorem coerceNum_idem (c : NumCell) : coerceNum (coerceNum c) = coerceNum c := by
  cases c with
  | str s => cases h : parseDecimal s <;> simp [coerceNum, h]
  | num q => rfl
  | nan => rfl

theorem coerceRow_idem (r : Row) : coerceRow (coerceRow r) = coerceRow r := by
  simp [coerceRow, coerceDate_idem, coerceNum_idem]

theorem coerceRow_setSeverity (r : Row) :
    coerceRow (setSeverity r) = setSeverity (coerceRow r) := by
  simp [coerceRow, setSeverity]

theorem setSeverity_idem (r : Row) : setSeverity (setSeverity r) = setSeverity r := by
  simp [setSeverity]

theorem rowComplete_setSeverity (r : Row) : rowComplete (setSeverity r) = rowComplete r := by
  simp [rowComplete]

/-- Every row of the cleaned table is a surviving input row, coerced and
given its severity code. -/
theorem mem_clean (t : List Row) (r : Row) (hr : r ∈ (preprocessing t).2) :
    ∃ r0, r0 ∈ t ∧ rowComplete (coerceRow r0) = true ∧ r = setSeverity (coerceRow r0) := by
  simp only [preprocessing, List.mem_map, List.mem_filter] at hr
  obtain ⟨a, ⟨ha, hc⟩, rfl⟩ := hr
  obtain ⟨r0, hr0, rfl⟩ := ha
  exact ⟨r0, hr0, hc, rfl⟩

/-- Every input row whose coerced critical cells are all present survives
into the cleaned table, with its severity code set. -/
theorem clean_mem_of (t : List Row) (r0 : Row) (h0 : r0 ∈ t)
    (hc : rowComplete (coerceRow r0) = true) :
    setSeverity (coerceRow r0) ∈ (preprocessing t).2 := by
  simp only [preprocessing]
  exact List.mem_map_of_mem _ (List.mem_filter.mpr ⟨List.mem_map_of_mem _ h0, hc⟩)

theorem isDate_exists {c : DateCell} (h : c.isDate = true) : ∃ d, c = DateCell.date d := by
  cases c with
  | str s => simp [DateCell.isDate] at h
  | date d => exact ⟨d, rfl⟩
  | nat => simp [DateCell.isDate] at h

theorem isNum_exists {c : NumCell} (h : c.isNum = true) : ∃ q, c = NumCell.num q := by
  cases c with
  | str s => simp [NumCell.isNum] at h
  | num q => exact ⟨q, rfl⟩
  | nan => simp [NumCell.isNum] at h

theorem severityMap_eq_none {o : Option String} (h1 : o ≠ some ("Slight"))
    (h2 : o ≠ some ("Serious")) (h3 : o ≠ some ("Fatal")) : severityMap o = none := by
  match o with
  | none => rfl
  | some s =>
      have hs1 : s ≠ ("Slight") := fun h => h1 (by rw [h])
      have hs2 : s ≠ ("Serious") := fun h => h2 (by rw [h])
      have hs3 : s ≠ ("Fatal") := fun h => h3 (by rw [h])
      simp [severityMap, hs1, hs2, hs3]

theorem map_id_of_mem {α : Type} (l : List α) (f : α → α) (h : ∀ x ∈ l, f x = x) :
    l.map f = l := by
  induction l with
  | nil => rfl
  | cons a as ih =>
      simp only [List.map_cons]
      rw [h a (List.mem_cons_self a as), ih (fun x hx => h x (List.mem_cons_of_mem a hx))]

/-- Rows of the cleaned table are fixed points of every preprocessing step. -/
theorem clean_fixed (t : List Row) (r : Row) (hr : r ∈ (preprocessing t).2) :
    coerceRow r = r ∧ rowComplete r = true ∧ setSeverity r = r := by
  obtain ⟨r0, _, hc, rfl⟩ := mem_clean t r hr
  refine ⟨?_, ?_, ?_⟩
  · rw [coerceRow_setSeverity, coerceRow_idem]
  · rw [rowComplete_setSeverity]; exact hc
  · exact setSeverity_idem _

/-- A raw input row whose date text parses and whose numeric cells hold
numbers. -/
def sampleGoodRow : Row :=
  { accidentDate := DateCell.str ("15-03-2021")
    accidentSeverity := some ("Slight")
    numberOfCasualties := NumCell.num 2
    numberOfVehicles := NumCell.num 1
    lightConditions := some ("Daylight")
    severityNum := none }

/-- The cleaned form of sampleGoodRow. -/
def sampleCleanRow : Row :=
  { accidentDate := DateCell.date ⟨2021, 3, 15⟩
    accidentSeverity := some ("Slight")
    numberOfCasualties := NumCell.num 2
    numberOfVehicles := NumCell.num 1
    lightConditions := some ("Daylight")
    severityNum := some 1 }

/-- A raw input row whose date text is no calendar date (month 13). -/
def rawBadDateRow : Row :=
  { accidentDate := DateCell.str ("31-13-2021")
    accidentSeverity := some ("Slight")
    numberOfCasualties := NumCell.num 2
    numberOfVehicles := NumCell.num 1
    lightConditions := some ("Daylight")
    severityNum := none }

/-- C1: every row retained in the cleaned table has a successfully parsed
Accident Date and numeric, non-missing Number_of_Casualties and
Number_of_Vehicles; invalid rows are eliminated rather than retained with
missing markers. -/
theorem clean_rows_valid (t : List Row) (r : Row) (hr : r ∈ (preprocessing t).2) :
    (∃ d, r.accidentDate = DateCell.date d) ∧
    (∃ q, r.numberOfCasualties = NumCell.num q) ∧
    (∃ q, r.numberOfVehicles = NumCell.num q) := by
  have hc := (clean_fixed t r hr).2.1
  simp only [rowComplete, Bool.and_eq_true] at hc
  exact ⟨isDate_exists hc.1.1, isNum_exists hc.1.2, isNum_exists hc.2⟩

/-- Witness for C1 at a one-row table whose date text parses. -/
theorem clean_rows_valid_witness :
    sampleCleanRow ∈ (preprocessing [sampleGoodRow]).2 ∧
    ((∃ d, sampleCleanRow.accidentDate = DateCell.date d) ∧
     (∃ q, sampleCleanRow.numberOfCasualties = NumCell.num q) ∧
     (∃ q, sampleCleanRow.numberOfVehicles = NumCell.num q)) :=
  ⟨by decide, clean_rows_valid [sampleGoodRow] sampleCleanRow (by decide)⟩

/-- C2: on the surviving rows preprocessing derives Severity_Num by the
ordinal map Slight to 1, Serious to 2, Fatal to 3, every other label getting
the missing value; and survival never depends on the severity label (a row
with an unmapped label is kept whenever its three critical cells are
valid). -/
theorem severity_encoding (t : List Row) :
    (∀ r ∈ (preprocessing t).2,
      (r.accidentSeverity = some ("Slight") → r.severityNum = some 1) ∧
      (r.accidentSeverity = some ("Serious") → r.severityNum = some 2) ∧
      (r.accidentSeverity = some ("Fatal") → r.severityNum = some 3) ∧
      (r.accidentSeverity ≠ some ("Slight") → r.accidentSeverity ≠ some ("Serious") →
        r.accidentSeverity ≠ some ("Fatal") → r.severityNum = none)) ∧
    (∀ r0 ∈ t, rowComplete (coerceRow r0) = true →
      setSeverity (coerceRow r0) ∈ (preprocessing t).2) := by
  constructor
  · intro r hr
    obtain ⟨r0, _, _, rfl⟩ := mem_clean t r hr
    simp only [setSeverity_severityNum, setSeverity_accidentSeverity,
      coerceRow_accidentSeverity]
    refine ⟨?_, ?_, ?_, fun h1 h2 h3 => severityMap_eq_none h1 h2 h3⟩ <;>
      (intro h; rw [h]; rfl)
  · exact fun r0 h0 hc => clean_mem_of t r0 h0 hc

/-- C8: preprocessing is idempotent on its own output: run again on the
cleaned table it neither coerces, eliminates nor re-encodes anything, and
both the caller-visible state and the returned table are the cleaned table
itself. -/
theorem preprocessing_idempotent (t : List Row) :
    preprocessing ((preprocessing t).2) = ((preprocessing t).2, (preprocessing t).2) := by
  have h1 : ((preprocessing t).2).map coerceRow = (preprocessing t).2 :=
    map_id_of_mem _ _ (fun r hr => (clean_fixed t r hr).1)
  have h2 : ((preprocessing t).2).filter rowComplete = (preprocessing t).2 :=
    List.filter_eq_self.mpr (fun r hr => (clean_fixed t r hr).2.1)
  have h3 : ((preprocessing t).2).map setSeverity = (preprocessing t).2 :=
    map_id_of_mem _ _ (fun r hr => (clean_fixed t r hr).2.2)
  show ((preprocessing t).2.map coerceRow,
      (((preprocessing t).2.map coerceRow).filter rowComplete).map setSeverity) = _
  rw [h1, h2, h3]

/-- C9: the cleaned table never has more rows than the input table. -/
theorem preprocessing_shrinks (t : List Row) :
    (preprocessing t).2.length ≤ t.length := by
  simp only [preprocessing, List.length_map]
  simpa using List.length_filter_le rowComplete (t.map coerceRow)

/-- C7 counterexample: preprocessing does mutate the caller's table.  On a
one-row table whose date text is invalid, the caller's table afterwards
holds NaT where the raw text stood. -/
theorem preprocessing_mutates_caller :
    (preprocessing [rawBadDateRow]).1 ≠ [rawBadDateRow] := by decide

/-- C7 amended: the call coerces the three critical columns of the caller's
table in place, but eliminates no row of it, adds no Severity_Num to it, and
leaves every other column value unchanged; the cleaned table is a separate
new table. -/
theorem preprocessing_caller_frame (t : List Row) :
    (preprocessing t).1.length = t.length ∧
    (preprocessing t).1.map Row.accidentSeverity = t.map Row.accidentSeverity ∧
    (preprocessing t).1.map Row.lightConditions = t.map Row.lightConditions ∧
    (preprocessing t).1.map Row.severityNum = t.map Row.severityNum ∧
    (preprocessing t).1 = t.map coerceRow := by
  refine ⟨by simp [preprocessing], ?_, ?_, ?_, rfl⟩ <;>
    (show (t.map coerceRow).map _ = _; rw [List.map_map]; rfl)

/-!
Helper lemmas about the moments embedding.
-/

theorem values_length_of_not_missing {col : List (Option ℚ)} (h : hasMissing col = false) :
    (values col).length = col.length := by
  induction col with
  | nil => rfl
  | cons c cs ih =>
      cases c with
      | none => simp [hasMissing] at h
      | some q =>
          simp only [hasMissing, List.any_cons, Bool.or_eq_false_iff] at h
          have := ih h.2
          simp [values, List.reduceOption_cons_of_some] at this ⊢
          omega

theorem listMean_singleton (a : ℚ) : listMean [a] = a := by
  simp [listMean]

theorem centralMoment_singleton (a : ℚ) (k : Nat) (hk : k ≠ 0) :
    centralMoment [a] k = 0 := by
  simp [centralMoment, listMean_singleton, zero_pow hk]

theorem values_replicate (n : Nat) (c : ℚ) :
    values (List.replicate n (some c)) = List.replicate n c := by
  induction n with
  | zero => rfl
  | succ m ih =>
      simp [values, List.replicate_succ, List.reduceOption_cons_of_some] at ih ⊢
      exact ih

theorem hasMissing_replicate (n : Nat) (c : ℚ) :
    hasMissing (List.replicate n (some c)) = false := by
  simp [hasMissing]

theorem listMean_replicate {n : Nat} (c : ℚ) (hn : n ≠ 0) :
    listMean (List.replicate n c) = c := by
  have hcast : ((n : ℚ)) ≠ 0 := Nat.cast_ne_zero.mpr hn
  rw [listMean, List.sum_replicate, List.length_replicate, nsmul_eq_mul,
    mul_div_assoc, mul_comm, div_mul_cancel₀ _ hcast]

theorem centralMoment_replicate (n : Nat) (c : ℚ) {k : Nat} (hk : k ≠ 0) :
    centralMoment (List.replicate n c) k = 0 := by
  rcases Nat.eq_zero_or_pos n with h0 | hpos
  · subst h0; simp [centralMoment]
  · rw [centralMoment, listMean_replicate c (Nat.pos_iff_ne_zero.mp hpos),
      List.map_replicate, sub_self, zero_pow hk, List.sum_replicate, smul_zero,
      zero_div]

theorem besselVariance_replicate (n : Nat) (c : ℚ) :
    besselVariance (List.replicate n c) = 0 := by
  rcases Nat.eq_zero_or_pos n with h0 | hpos
  · subst h0; simp [besselVariance]
  · rw [besselVariance, listMean_replicate c (Nat.pos_iff_ne_zero.mp hpos),
      List.map_replicate, sub_self, zero_pow (by decide : (2 : Nat) ≠ 0),
      List.sum_replicate, smul_zero, zero_div]

theorem centralMoment_of_short {l : List ℚ} (h : l.length < 2) {k : Nat} (hk : k ≠ 0) :
    centralMoment l k = 0 := by
  cases l with
  | nil => simp [centralMoment]
  | cons a tl =>
      cases tl with
      | nil => exact centralMoment_singleton a k hk
      | cons b tl2 =>
          simp only [List.length_cons] at h
          omega

theorem scipy_skew_eq_none_of_cm2 {col : List (Option ℚ)}
    (hcm : centralMoment (values col) 2 = 0) : scipy_skew col = none := by
  unfold scipy_skew
  by_cases h1 : hasMissing col = true
  · rw [if_pos h1]
  · rw [if_neg h1]
    by_cases h2 : col.isEmpty = true
    · rw [if_pos h2]
    · rw [if_neg h2, if_pos hcm]

theorem scipy_kurtosis_eq_none_of_cm2 {col : List (Option ℚ)}
    (hcm : centralMoment (values col) 2 = 0) : scipy_kurtosis col = none := by
  unfold scipy_kurtosis
  by_cases h1 : hasMissing col = true
  · rw [if_pos h1]
  · rw [if_neg h1]
    by_cases h2 : col.isEmpty = true
    · rw [if_pos h2]
    · rw [if_neg h2, if_pos hcm]

theorem scipy_skew_none_of_missing {col : List (Option ℚ)}
    (h : hasMissing col = true) : scipy_skew col = none := by
  unfold scipy_skew; rw [if_pos h]

theorem scipy_kurtosis_none_of_missing {col : List (Option ℚ)}
    (h : hasMissing col = true) : scipy_kurtosis col = none := by
  unfold scipy_kurtosis; rw [if_pos h]

/-- C3 counterexample: on a column with a single value the source raises
nothing: statistical_analysis returns an ordinary quadruple (the mean of the
one value, with NaN standard deviation, skewness and kurtosis), not an
InsufficientData failure. -/
theorem stats_no_error_on_singleton :
    statistical_analysis [some 1] = (some 1, none, none, none) := by
  have hv : values [some 1] = [1] := rfl
  have hcm : centralMoment (values [some 1]) 2 = 0 := by
    rw [hv]; exact centralMoment_singleton 1 2 (by decide)
  have hmean : series_mean [some 1] = some 1 := by
    rw [series_mean, hv]
    simp [listMean_singleton]
  have hstd : series_std [some 1] = none := by
    rw [series_std, hv, if_pos (by decide : ([(1 : ℚ)]).length < 2)]
  rw [statistical_analysis, hmean, hstd, scipy_skew_eq_none_of_cm2 hcm,
    scipy_kurtosis_eq_none_of_cm2 hcm]

/-- C3 amended: with fewer than 2 non-missing values statistical_analysis
never fails; it returns NaN for standard deviation, skewness and excess
kurtosis (and NaN mean when no value at all is present). -/
theorem stats_insufficient_data (col : List (Option ℚ))
    (h : (values col).length < 2) :
    (statistical_analysis col).2.1 = none ∧
    (statistical_analysis col).2.2.1 = none ∧
    (statistical_analysis col).2.2.2 = none ∧
    (values col = [] → (statistical_analysis col).1 = none) := by
  have hcm : centralMoment (values col) 2 = 0 :=
    centralMoment_of_short h (by decide)
  refine ⟨?_, scipy_skew_eq_none_of_cm2 hcm, scipy_kurtosis_eq_none_of_cm2 hcm, ?_⟩
  · show series_std col = none
    rw [series_std, if_pos h]
  · intro he
    show series_mean col = none
    rw [series_mean, if_pos (by rw [he]; rfl)]

/-- Witness for C3's amended theorem at the singleton column. -/
theorem stats_insufficient_data_witness :
    (values [some 1]).length < 2 ∧
    ((statistical_analysis [some 1]).2.1 = none ∧
     (statistical_analysis [some 1]).2.2.1 = none ∧
     (statistical_analysis [some 1]).2.2.2 = none ∧
     (values [some 1] = [] → (statistical_analysis [some 1]).1 = none)) :=
  ⟨by decide, stats_insufficient_data [some 1] (by decide)⟩

/-- C4: on a fully numeric column with at least two values, the first moment
is the arithmetic mean, the second the Bessel-corrected (divisor n - 1)
sample standard deviation, and, whenever the population variance is not the
degenerate zero, the fourth is excess kurtosis: the fourth standardized
moment minus 3. -/
theorem stats_match_spec_formulas (col : List (Option ℚ)) (h1 : hasMissing col = false)
    (h2 : 2 ≤ col.length) :
    (statistical_analysis col).1 = some (arithmeticMean (values col)) ∧
    (statistical_analysis col).2.1 = some (sampleStdBessel (values col)) ∧
    (popMoment (values col) 2 ≠ 0 →
      (statistical_analysis col).2.2.2 = some (specExcessKurtosis (values col))) := by
  have hlen : (values col).length = col.length := values_length_of_not_missing h1
  have hne : ¬ (values col).isEmpty = true := by
    rw [List.isEmpty_iff]
    intro he
    rw [he] at hlen
    simp at hlen
    omega
  refine ⟨?_, ?_, ?_⟩
  · show series_mean col = some (arithmeticMean (values col))
    rw [series_mean, if_neg hne]
    rfl
  · show series_std col = some (sampleStdBessel (values col))
    have hlt : ¬ (values col).length < 2 := by omega
    rw [series_std, if_neg hlt]
    rfl
  · intro hm
    have hm' : centralMoment (values col) 2 ≠ 0 := hm
    show scipy_kurtosis col = some (specExcessKurtosis (values col))
    have hnm : ¬ hasMissing col = true := by rw [h1]; exact Bool.false_ne_true
    have hce : ¬ col.isEmpty = true := by
      rw [List.isEmpty_iff]
      intro he
      rw [he] at h2
      simp at h2
    rw [scipy_kurtosis, if_neg hnm, if_neg hce, if_neg hm']
    rfl

/-- Witness for C4 at the two-point column 1, 3. -/
theorem stats_match_spec_formulas_witness :
    hasMissing [some 1, some 3] = false ∧
    2 ≤ ([some 1, some 3] : List (Option ℚ)).length ∧
    ((statistical_analysis [some 1, some 3]).1
        = some (arithmeticMean (values [some 1, some 3])) ∧
     (statistical_analysis [some 1, some 3]).2.1
        = some (sampleStdBessel (values [some 1, some 3])) ∧
     (popMoment (values [some 1, some 3]) 2 ≠ 0 →
       (statistical_analysis [some 1, some 3]).2.2.2
          = some (specExcessKurtosis (values [some 1, some 3])))) :=
  ⟨by decide, by decide, stats_match_spec_formulas [some 1, some 3] (by decide) (by decide)⟩

/-- C6: on a constant column of n identical values (n at least 2) the result
is the value itself as mean, exactly zero standard deviation, and the
indeterminate NaN sentinel for both skewness and excess kurtosis; no branch
raises. -/
theorem stats_constant_column (n : Nat) (c : ℚ) (h : 2 ≤ n) :
    statistical_analysis (List.replicate n (some c)) = (some c, some 0, none, none) := by
  have hn : n ≠ 0 := by omega
  have hv : values (List.replicate n (some c)) = List.replicate n c := values_replicate n c
  have hcm : centralMoment (values (List.replicate n (some c))) 2 = 0 := by
    rw [hv]; exact centralMoment_replicate n c (by decide)
  have hne : ¬ (List.replicate n c).isEmpty = true := by
    rw [List.isEmpty_iff]
    intro he
    have := congrArg List.length he
    simp at this
    omega
  have hmean : series_mean (List.replicate n (some c)) = some c := by
    rw [series_mean, hv, if_neg hne, listMean_replicate c hn]
  have hlt : ¬ (values (List.replicate n (some c))).length < 2 := by
    rw [hv, List.length_replicate]; omega
  have hstd : series_std (List.replicate n (some c)) = some 0 := by
    rw [series_std, if_neg hlt, hv, besselVariance_replicate]
    simp
  rw [statistical_analysis, hmean, hstd, scipy_skew_eq_none_of_cm2 hcm,
    scipy_kurtosis_eq_none_of_cm2 hcm]

/-- Witness for C6 at two copies of the value 5. -/
theorem stats_constant_column_witness :
    2 ≤ 2 ∧
    statistical_analysis (List.replicate 2 (some (5 : ℚ))) = (some 5, some 0, none, none) :=
  ⟨by decide, stats_constant_column 2 5 (by decide)⟩

/-- C10: missing values are treated asymmetrically: one missing value makes
skewness and excess kurtosis NaN outright, while mean and standard deviation
are computed from the non-missing values alone (NaN only below their own
data-count thresholds). -/
theorem stats_missing_asymmetry (col : List (Option ℚ)) (h1 : hasMissing col = true)
    (h2 : 2 ≤ col.length) :
    (statistical_analysis col).2.2.1 = none ∧
    (statistical_analysis col).2.2.2 = none ∧
    (values col ≠ [] →
      (statistical_analysis col).1 = some (arithmeticMean (values col))) ∧
    (values col = [] → (statistical_analysis col).1 = none) ∧
    (2 ≤ (values col).length →
      (statistical_analysis col).2.1 = some (sampleStdBessel (values col))) ∧
    ((values col).length < 2 → (statistical_analysis col).2.1 = none) := by
  refine ⟨scipy_skew_none_of_missing h1, scipy_kurtosis_none_of_missing h1,
    ?_, ?_, ?_, ?_⟩
  · intro hne
    show series_mean col = _
    have hne' : ¬ (values col).isEmpty = true := by rw [List.isEmpty_iff]; exact hne
    rw [series_mean, if_neg hne']
    rfl
  · intro he
    show series_mean col = none
    rw [series_mean, if_pos (by rw [List.isEmpty_iff]; exact he)]
  · intro hge
    show series_std col = _
    rw [series_std, if_neg (by omega)]
    rfl
  · intro hlt
    show series_std col = none
    rw [series_std, if_pos hlt]

/-- Witness for C10 at a three-cell column with one missing value. -/
theorem stats_missing_asymmetry_witness :
    hasMissing [some 1, some 2, none] = true ∧
    2 ≤ ([some 1, some 2, none] : List (Option ℚ)).length ∧
    ((statistical_analysis [some 1, some 2, none]).2.2.1 = none ∧
     (statistical_analysis [some 1, some 2, none]).2.2.2 = none ∧
     (values [some 1, some 2, none] ≠ [] →
       (statistical_analysis [some 1, some 2, none]).1
          = some (arithmeticMean (values [some 1, some 2, none]))) ∧
     (values [some 1, some 2, none] = [] →
       (statistical_analysis [some 1, some 2, none]).1 = none) ∧
     (2 ≤ (values [some 1, some 2, none]).length →
       (statistical_analysis [some 1, some 2, none]).2.1
          = some (sampleStdBessel (values [some 1, some 2, none]))) ∧
     ((values [some 1, some 2, none]).length < 2 →
       (statistical_analysis [some 1, some 2, none]).2.1 = none)) :=
  ⟨by decide, by decide, stats_missing_asymmetry _ (by decide) (by decide)⟩

/-- C5: the interpretation classifies skewness with strict thresholds at
plus and minus 0.5 (both boundary values fall to approximately symmetric)
and excess kurtosis with strict thresholds at 0 (zero itself is
mesokurtic). -/
theorem writing_classification (m : Option ℚ) (sd : Option ℝ) (s : ℝ) (k : ℚ) :
    ((1 / 2 : ℝ) < s → (writing (m, sd, some s, some k)).1 = ("right skewed")) ∧
    (s < -(1 / 2 : ℝ) → (writing (m, sd, some s, some k)).1 = ("left skewed")) ∧
    (-(1 / 2 : ℝ) ≤ s → s ≤ 1 / 2 →
      (writing (m, sd, some s, some k)).1 = ("approximately symmetric")) ∧
    ((0 : ℚ) < k → (writing (m, sd, some s, some k)).2 = ("leptokurtic")) ∧
    (k < 0 → (writing (m, sd, some s, some k)).2 = ("platykurtic")) ∧
    (k = 0 → (writing (m, sd, some s, some k)).2 = ("mesokurtic")) := by
  refine ⟨?_, ?_, ?_, ?_, ?_, ?_⟩
  · intro h
    show skewClass (some s) = _
    simp only [skewClass]
    rw [if_pos h]
  · intro h
    have h1 : ¬ s > 1 / 2 := by linarith
    show skewClass (some s) = _
    simp only [skewClass]
    rw [if_neg h1, if_pos h]
  · intro ha hb
    have h1 : ¬ s > 1 / 2 := not_lt.mpr hb
    have h2 : ¬ s < -(1 / 2 : ℝ) := not_lt.mpr ha
    show skewClass (some s) = _
    simp only [skewClass]
    rw [if_neg h1, if_neg h2]
  · intro h
    show kurtClass (some k) = _
    simp only [kurtClass]
    rw [if_pos h]
  · intro h
    have h1 : ¬ k > 0 := by linarith
    show kurtClass (some k) = _
    simp only [kurtClass]
    rw [if_neg h1, if_pos h]
  · intro h
    subst h
    show kurtClass (some 0) = _
    simp [kurtClass]
